import Mathlib

/-!
Verification of the FARBS-Firefox (pywalfox) extension core: a shallow
embedding of the colorscheme generation pipeline
(`src/generators/colorscheme`, provided as `src/unnamed/part_001`) and of
the native-messaging session (`src/communication/native-messenger.ts`),
with theorems settling the specification claims.

Modelling conventions:
- JavaScript objects with string keys are association lists in insertion
  order (`JSObj`); writing to an existing key overwrites in place, writing
  a fresh key appends, matching JS object semantics.
- Handlers of the native-messaging session are pure functions from the
  inbound message to the list of observable effects (callback invocations,
  log lines, timer cancellations, channel writes), in execution order.
- Module-level configuration imported from files absent from the sources
  (`PALETTE_TEMPLATE_DATA`, `BROWSER_TEMPLATE_DATA`, `EXTENDED_PYWAL_COLORS`,
  `EXTENSION_THEME_SELCTOR`, `changeLuminance`, `NATIVE_MESSAGES`) is
  modelled from the spec as parameters or abstract enumerations, so the
  theorems hold for every admissible configuration.
-/

namespace Pywalfox

/-- A JavaScript object with string keys and string values, in key
insertion order. -/
abbrev JSObj := List (String × String)

/-- Property read `o[k]`: the value at the first (and, for genuine JS
objects, only) occurrence of key `k`. -/
def objLookup : JSObj → String → Option String
  | [], _ => none
  | p :: rest, k => if p.1 = k then some p.2 else objLookup rest k

/-- Property write `o[k] = v` on a JS object: overwrite in place when the
key exists, append otherwise. -/
def objInsert (o : JSObj) (k v : String) : JSObj :=
  if o.any (fun p => p.1 = k) then
    o.map (fun p => if p.1 = k then (k, v) else p)
  else o ++ [(k, v)]

/-- `Object.assign(o, updates)`: write every binding of `updates` into `o`
in order. -/
def objAssign (o : JSObj) (updates : JSObj) : JSObj :=
  updates.foldl (fun acc kv => objInsert acc kv.1 kv.2) o

/-- Sort key of a string: its code points, in order. The JS comparator
`(a, b) => a > b ? 1 : -1` orders keys by code-unit comparison; for the
role names at hand (ASCII) this is code-point lexicographic order. -/
def strKey (s : String) : List Nat := s.data.map Char.toNat

/-- The key order used by `Array.prototype.sort` with the comparator in
`generatePaletteHash`. -/
def keyLe (a b : String) : Prop := strKey a ≤ strKey b

instance : DecidableRel keyLe :=
  fun a b => inferInstanceAs (Decidable (strKey a ≤ strKey b))

/-- `stripHashSymbol` from the source: `color.substring(1)`, dropping the
first character unconditionally. -/
def stripHashSymbol (color : String) : String := color.drop 1

/-- `generatePaletteHash`: sort the palette keys with the comparator
`(a, b) => a > b ? 1 : -1` and concatenate the values with their first
character stripped. -/
def generatePaletteHash (palette : JSObj) : String :=
  (List.insertionSort keyLe (palette.map Prod.fst)).foldl
    (fun hash key => hash ++ stripHashSymbol ((objLookup palette key).getD "")) ""

/-- One entry of `PALETTE_TEMPLATE_DATA` / `BROWSER_TEMPLATE_DATA`
(`ITemplateItem`): a target role key and its CSS variable name. -/
structure ITemplateItem where
  target : String
  cssVariable : String
deriving DecidableEq

/-- `createObjectFromTemplateData`: build an object whose keys are the
targets declared in `data`, each mapped to `values[template[target]]`.
`values` is indexing into either an array (`κ = Nat`) or an object
(`κ = String`), as in the generic TypeScript original. A lookup miss
(JS `undefined` written through) is modelled as the empty string; this
corner is outside every claim. -/
def createObjectFromTemplateData {κ : Type} (data : List ITemplateItem)
    (values : κ → Option String) (template : String → κ) : JSObj :=
  data.foldl
    (fun obj item => objInsert obj item.target ((values (template item.target)).getD ""))
    []

/-- `generatePalette`: derive the default palette from the template, then
`Object.assign` the custom colors over it. `paletteTemplateData` stands for
the module constant `PALETTE_TEMPLATE_DATA`, whose config file is absent
from the sources; the theorems hold for every value of it. -/
def generatePalette (paletteTemplateData : List ITemplateItem)
    (pywalColors : List String) (customColors : JSObj)
    (template : String → Nat) : JSObj :=
  objAssign
    (createObjectFromTemplateData paletteTemplateData (fun i => pywalColors[i]?) template)
    customColors

/-- `generateBrowserTheme`: the same template instantiation, reading values
out of the palette object. -/
def generateBrowserTheme (browserTemplateData : List ITemplateItem)
    (palette : JSObj) (template : String → String) : JSObj :=
  createObjectFromTemplateData browserTemplateData (objLookup palette) template

/-- Modelled from the spec: `changeLuminance` from `@utils/colors` is absent
from the sources; the spec describes it as a luminance shift parameterized
by a modifier and optionally clamped to `[min, max]`. It is taken as an
arbitrary function parameter, so every theorem holds for each choice. -/
abbrev ChangeLuminance := String → Int → Option Int → Option Int → String

/-- One value of a `IDuckDuckGoThemeTemplate` object: a palette role key and
an optional luminance modifier. -/
structure IDuckDuckGoThemeTemplateItem where
  colorKey : String
  modifier : Option Int
deriving DecidableEq

/-- `generateDuckduckgoTheme`: for each template key, read the palette color
at `colorKey`, apply the luminance modifier when declared, strip the leading
character, and write it under the template key. -/
def generateDuckduckgoTheme (changeLuminance : ChangeLuminance) (palette : JSObj)
    (template : List (String × IDuckDuckGoThemeTemplateItem)) : JSObj :=
  template.foldl
    (fun theme kv =>
      let color := (objLookup palette kv.2.colorKey).getD ""
      let color := match kv.2.modifier with
        | some m => changeLuminance color m none none
        | none => color
      objInsert theme kv.1 (stripHashSymbol color))
    []

/-- `generateExtensionTheme`: concatenate `cssVariable:value;` pairs for
every palette template entry, wrapped in the selector. `selector` stands for
the module constant `EXTENSION_THEME_SELCTOR`, absent from the sources. -/
def generateExtensionTheme (paletteTemplateData : List ITemplateItem)
    (selector : String) (palette : JSObj) : String :=
  let cssVars := paletteTemplateData.foldl
    (fun vars item =>
      vars ++ item.cssVariable ++ ":" ++ (objLookup palette item.target).getD "" ++ ";")
    ""
  selector ++ "\x7b" ++ cssVars ++ "\x7d"

/-- Modelled from the spec: `ThemeModes` from `@definitions` is absent from
the sources; the glossary gives Dark | Light | Auto. -/
inductive ThemeModes where
  | Dark
  | Light
  | Auto
deriving DecidableEq

/-- The object returned by `generateDarkreaderScheme`: each field is `none`
when the corresponding key is absent from the returned object literal. -/
structure IDarkreaderScheme where
  darkSchemeTextColor : Option String
  darkSchemeBackgroundColor : Option String
  lightSchemeTextColor : Option String
  lightSchemeBackgroundColor : Option String
deriving DecidableEq

/-- `generateDarkreaderScheme({ background, text }, mode)`: the dark pair
object literal when `mode` is Dark, the light pair otherwise. -/
def generateDarkreaderScheme (palette : JSObj) (mode : ThemeModes) : IDarkreaderScheme :=
  let background := objLookup palette "background"
  let text := objLookup palette "text"
  if mode = ThemeModes.Dark then
    { darkSchemeTextColor := text
      darkSchemeBackgroundColor := background
      lightSchemeTextColor := none
      lightSchemeBackgroundColor := none }
  else
    { darkSchemeTextColor := none
      darkSchemeBackgroundColor := none
      lightSchemeTextColor := text
      lightSchemeBackgroundColor := background }

/-- Modelled from the spec: one entry of `EXTENDED_PYWAL_COLORS`
(`IExtendedPywalColor` from `@config/default-themes`, absent from the
sources): either a literal insertion (`custom`, recognized in the source by
its `colorString` field) or a luminance-shifted copy of an existing entry
(`derived`, with `colorIndex`, `modifier` and clamping bounds). -/
inductive IExtendedPywalColor where
  | custom (targetIndex : Nat) (colorString : String)
  | derived (targetIndex : Nat) (colorIndex : Nat) (modifier : Int)
      (minL maxL : Option Int)
deriving DecidableEq

/-- The `targetIndex` field shared by both variants. -/
def IExtendedPywalColor.targetIndex : IExtendedPywalColor → Nat
  | .custom t _ => t
  | .derived t _ _ _ _ => t

/-- `colors.splice(i, 0, a)`: insert `a` at index `i`, clamped to the end of
the array when `i` exceeds its length. -/
def spliceInsert (l : List String) (i : Nat) (a : String) : List String :=
  match i, l with
  | 0, l => a :: l
  | _ + 1, [] => [a]
  | i + 1, x :: xs => x :: spliceInsert xs i a

/-- The body of the `forEach` in `generatePywalPalette`: compute the
insertion value (the literal, or the luminance-shifted source read from the
growing array) and splice it in at `targetIndex`. An out-of-range
`colorIndex` (JS `undefined` fed to `changeLuminance`) is modelled as the
empty string; the modelled spec lists keep it in range. -/
def applyExtendedColor (changeLuminance : ChangeLuminance)
    (colors : List String) (color : IExtendedPywalColor) : List String :=
  match color with
  | .custom targetIndex colorString => spliceInsert colors targetIndex colorString
  | .derived targetIndex colorIndex modifier lo hi =>
      spliceInsert colors targetIndex
        (changeLuminance ((colors[colorIndex]?).getD "") modifier lo hi)

/-- `generatePywalPalette`: copy the incoming array (value semantics here),
then apply every `EXTENDED_PYWAL_COLORS` entry in declaration order.
`extendedPywalColors` stands for that module constant, whose config file is
absent from the sources. -/
def generatePywalPalette (changeLuminance : ChangeLuminance)
    (extendedPywalColors : List IExtendedPywalColor)
    (pywalColors : List String) : List String :=
  extendedPywalColors.foldl (applyExtendedColor changeLuminance) pywalColors

/-- `PYWAL_PALETTE_LENGTH` from the sources. -/
def PYWAL_PALETTE_LENGTH : Nat := 18

/-- The per-target templates bundled in an `IColorschemeTemplate`. -/
structure IColorschemeTemplate where
  palette : String → Nat
  browser : String → String
  duckduckgo : List (String × IDuckDuckGoThemeTemplateItem)

/-- The result object of `generateColorscheme`. -/
structure IColorscheme where
  hash : String
  palette : JSObj
  browser : JSObj
  extensionTheme : String
  duckduckgo : JSObj
  darkreader : IDarkreaderScheme

/-- Modelled from the spec: the module-level configuration the colorscheme
generators import from config files absent from the sources, gathered as a
parameter record. -/
structure ColorschemeConfig where
  paletteTemplateData : List ITemplateItem
  browserTemplateData : List ITemplateItem
  extensionThemeSelector : String
  changeLuminance : ChangeLuminance

/-- `generateColorscheme`: build the final palette, then the hash and every
themed output from it. -/
def generateColorscheme (cfg : ColorschemeConfig) (mode : ThemeModes)
    (pywalColors : List String) (customColors : JSObj)
    (template : IColorschemeTemplate) : IColorscheme :=
  let palette := generatePalette cfg.paletteTemplateData pywalColors customColors template.palette
  { hash := generatePaletteHash palette
    palette := palette
    browser := generateBrowserTheme cfg.browserTemplateData palette template.browser
    extensionTheme := generateExtensionTheme cfg.paletteTemplateData cfg.extensionThemeSelector palette
    duckduckgo := generateDuckduckgoTheme cfg.changeLuminance palette template.duckduckgo
    darkreader := generateDarkreaderScheme palette mode }

/-- Modelled from the spec: the `NativeAppErrors` enumeration from
`@definitions` (absent from the sources): clean disconnect, unknown cause,
helper not installed, unexpected helper error. -/
inductive NativeAppErrors where
  | None
  | Unknown
  | ManifestNotInstalled
  | UnexpectedError
deriving DecidableEq

/-- The `INativeAppError` passed to the `disconnected` callback. -/
structure INativeAppError where
  type : NativeAppErrors
  message : Option String
deriving DecidableEq

/-- Modelled from the spec: the `NATIVE_MESSAGES` action tags from
`@config/general` (absent from the sources), one per dispatch case of
`onMessage`. -/
inductive NativeMessageTag where
  | VERSION
  | OUTPUT
  | PYWAL_COLORS
  | CSS_ENABLE
  | CSS_DISABLE
  | CSS_FONT_SIZE
  | THEME_MODE
  | INVALID_ACTION
deriving DecidableEq

/-- An outbound request `{ action, target?, size? }`. -/
structure INativeAppRequest where
  action : NativeMessageTag
  target : Option String
  size : Option Nat
deriving DecidableEq

/-- The pywal-colors payload shape used from native app version 2.7 on:
`{ colors, wallpaper }`. -/
structure IPywalColorsResponseData where
  colors : List String
  wallpaper : Option String
deriving DecidableEq

/-- The `data` payload of a pywal-colors response: the legacy shape is the
bare colors array (no `wallpaper` key), the modern shape carries one. -/
inductive PywalResponsePayload where
  | legacy (colors : List String)
  | modern (data : IPywalColorsResponseData)
deriving DecidableEq

/-- An observable effect of a `NativeApp` handler, in execution order:
timer cancellations, log lines through the `output` callback, channel
writes, and the typed callbacks to the collaborator. -/
inductive Effect where
  | clearVersionCheckTimeout
  | clearConnectedCheckTimeout
  | logError (message : String)
  | output (message : String)
  | postMessage (message : INativeAppRequest)
  | cbVersion (version : String)
  | cbUpdateNeeded
  | cbPywalColorsFetchSuccess (data : IPywalColorsResponseData)
  | cbPywalColorsFetchFailed (error : Option String)
  | cbDisconnected (error : INativeAppError)
deriving DecidableEq

/-- `getData`: return `message.data` when the message has a `data` key
(outer `Option`), otherwise log and return `null`. The inner `Option`
distinguishes a `null`-ish value carried under a present key. -/
def getData {α : Type} (data : Option (Option α)) : Option α × List Effect :=
  match data with
  | some value => (value, [])
  | none =>
      (none,
       [Effect.logError
          "Recieved invalid message from native app. The \x27data\x27 field is undefined."])

/-- `onVersionResponse`: deliver a truthy payload through the `version`
callback, otherwise fire `updateNeeded`; in either case clear the
version-check timer afterwards. The empty string is falsy in JS, hence the
explicit test. -/
def onVersionResponse (data : Option (Option String)) : List Effect :=
  let result := getData data
  (result.2 ++
    match result.1 with
    | some version =>
        if version = "" then [Effect.cbUpdateNeeded] else [Effect.cbVersion version]
    | none => [Effect.cbUpdateNeeded]) ++
  [Effect.clearVersionCheckTimeout]

/-- `onPywalColorsResponse`: failure responses surface the carried error; a
successful response with a missing or null payload is logged and dropped; a
modern payload passes through unchanged and a legacy payload is wrapped as
`{ colors, wallpaper: null }`. -/
def onPywalColorsResponse (success : Bool) (error : Option String)
    (data : Option (Option PywalResponsePayload)) : List Effect :=
  if !success then [Effect.cbPywalColorsFetchFailed error]
  else
    let result := getData data
    match result.1 with
    | none =>
        result.2 ++ [Effect.logError "Pywal data was read successfully but contained null"]
    | some (.modern pywalData) =>
        result.2 ++ [Effect.cbPywalColorsFetchSuccess pywalData]
    | some (.legacy colors) =>
        result.2 ++
          [Effect.cbPywalColorsFetchSuccess { colors := colors, wallpaper := none }]

/-- The error phrase recognized by the first case of the disconnect switch. -/
def NO_SUCH_APPLICATION_ERROR : String := "Error: No such native application pywalfox"

/-- The error phrase recognized by the second case of the disconnect switch. -/
def UNEXPECTED_ERROR_PHRASE : String := "Error: An unexpected error occurred"

/-- The `switch (error.message)` inside `onDisconnect`, embedded with its
fallthrough: execution enters at the first matching case label and every
later case body also runs, so each later assignment to `nativeError.type`
overwrites the earlier one. -/
def disconnectSwitch (message : String) : NativeAppErrors :=
  let entryCase : Nat :=
    if message = NO_SUCH_APPLICATION_ERROR then 0
    else if message = UNEXPECTED_ERROR_PHRASE then 1
    else 2
  let t := NativeAppErrors.None
  let t := if entryCase ≤ 0 then NativeAppErrors.ManifestNotInstalled else t
  let t := if entryCase ≤ 1 then NativeAppErrors.UnexpectedError else t
  let t := if entryCase ≤ 2 then NativeAppErrors.Unknown else t
  t

/-- The `INativeAppError` built by `onDisconnect`: `{ type: None, message:
null }` when the port carries no error, otherwise the switch result with
the original message. -/
def classifyDisconnect (error : Option String) : INativeAppError :=
  match error with
  | none => { type := NativeAppErrors.None, message := none }
  | some message => { type := disconnectSwitch message, message := some message }

/-- String interpolation of the port error object into the disconnect log
line (JS prints `undefined` for an absent error). -/
def errorDisplay : Option String → String
  | none => "undefined"
  | some message => message

/-- `onDisconnect`: clear both timers, classify the carried error, log, and
deliver the classification to the `disconnected` callback. -/
def onDisconnect (error : Option String) : List Effect :=
  [Effect.clearVersionCheckTimeout,
   Effect.clearConnectedCheckTimeout,
   Effect.logError ("Disconnected from native messaging host: " ++ errorDisplay error),
   Effect.cbDisconnected (classifyDisconnect error)]

/-- `sendMessage`: drop the message with a single error log line while not
connected, otherwise write it to the port. -/
def sendMessage (isConnected : Bool) (message : INativeAppRequest) : List Effect :=
  if !isConnected then
    [Effect.logError "Failed to send data to native app. You are not connected"]
  else
    [Effect.postMessage message]

/-- `requestVersion`. -/
def requestVersion (isConnected : Bool) : List Effect :=
  sendMessage isConnected { action := NativeMessageTag.VERSION, target := none, size := none }

/-- `requestPywalColors`. -/
def requestPywalColors (isConnected : Bool) : List Effect :=
  sendMessage isConnected
    { action := NativeMessageTag.PYWAL_COLORS, target := none, size := none }

/-- `requestCssEnabled`. -/
def requestCssEnabled (isConnected : Bool) (target : String) (enabled : Bool) : List Effect :=
  sendMessage isConnected
    { action := if enabled then NativeMessageTag.CSS_ENABLE else NativeMessageTag.CSS_DISABLE
      target := some target
      size := none }

/-- `requestFontSizeSet`. -/
def requestFontSizeSet (isConnected : Bool) (target : String) (size : Nat) : List Effect :=
  sendMessage isConnected
    { action := NativeMessageTag.CSS_FONT_SIZE, target := some target, size := some size }

/-- Recognizer for channel writes among effects. -/
def isPostMessage : Effect → Bool
  | Effect.postMessage _ => true
  | _ => false

/-- Recognizer for error log lines among effects. -/
def isErrorLog : Effect → Bool
  | Effect.logError _ => true
  | _ => false

/-- Code points determine the character. -/
theorem char_toNat_injective : Function.Injective Char.toNat := fun x y h => by
  rw [← Char.ofNat_toNat x, ← Char.ofNat_toNat y, h]

/-- Strings with the same sort key are equal. -/
theorem strKey_inj {a b : String} (h : strKey a = strKey b) : a = b :=
  String.ext (List.map_injective_iff.mpr char_toNat_injective h)

instance : IsTrans String keyLe := ⟨fun _ _ _ hab hbc => le_trans hab hbc⟩

instance : IsTotal String keyLe := ⟨fun a b => le_total (strKey a) (strKey b)⟩

instance : IsAntisymm String keyLe := ⟨fun _ _ h1 h2 => strKey_inj (le_antisymm h1 h2)⟩

/-- Reading a key absent from the object yields `undefined`. -/
theorem objLookup_eq_none_of_not_any (o : JSObj) (k : String)
    (h : ¬ o.any (fun p => p.1 = k) = true) : objLookup o k = none := by
  induction o with
  | nil => rfl
  | cons p rest ih =>
    simp only [List.any_cons, Bool.or_eq_true, not_or] at h
    rw [objLookup, if_neg (by simpa using h.1)]
    exact ih h.2

/-- Reads fall through a concatenation left to right. -/
theorem objLookup_append (o o' : JSObj) (k : String) :
    objLookup (o ++ o') k =
      match objLookup o k with
      | some v => some v
      | none => objLookup o' k := by
  induction o with
  | nil => rfl
  | cons p rest ih =>
    by_cases hk : p.1 = k
    · simp [objLookup, hk]
    · simp only [List.cons_append, objLookup, if_neg hk]
      exact ih

/-- Replacing all pairs keyed `k` makes reading `k` return the new value,
when some pair has key `k`. -/
theorem objLookup_map_replace_self (o : JSObj) (k v : String)
    (hany : o.any (fun p => p.1 = k) = true) :
    objLookup (o.map (fun p => if p.1 = k then (k, v) else p)) k = some v := by
  induction o with
  | nil => simp at hany
  | cons p rest ih =>
    by_cases hk : p.1 = k
    · have hrepl : (if p.1 = k then (k, v) else p) = (k, v) := if_pos hk
      rw [List.map_cons, hrepl, objLookup, if_pos rfl]
    · have hr : rest.any (fun p => p.1 = k) = true := by
        simpa [List.any_cons, hk] using hany
      simp only [List.map_cons, if_neg hk, objLookup, if_neg hk]
      exact ih hr

/-- Replacing all pairs keyed `k` does not change reads of other keys. -/
theorem objLookup_map_replace_other (o : JSObj) (k v k' : String) (h : k' ≠ k) :
    objLookup (o.map (fun p => if p.1 = k then (k, v) else p)) k' = objLookup o k' := by
  induction o with
  | nil => rfl
  | cons p rest ih =>
    by_cases hk : p.1 = k
    · simp only [List.map_cons, if_pos hk, objLookup, if_neg (Ne.symm h),
        if_neg (fun e : p.1 = k' => h (e.symm.trans hk)), ih]
    · simp only [List.map_cons, if_neg hk, objLookup, ih]

/-- Writing key `k` makes reading `k` return the written value. -/
theorem objLookup_objInsert_self (o : JSObj) (k v : String) :
    objLookup (objInsert o k v) k = some v := by
  by_cases hany : o.any (fun p => p.1 = k) = true
  · rw [objInsert, if_pos hany]
    exact objLookup_map_replace_self o k v hany
  · rw [objInsert, if_neg hany, objLookup_append,
      objLookup_eq_none_of_not_any o k hany]
    simp [objLookup]

/-- Writing key `k` leaves reads of every other key unchanged. -/
theorem objLookup_objInsert_other (o : JSObj) (k v k' : String) (h : k' ≠ k) :
    objLookup (objInsert o k v) k' = objLookup o k' := by
  by_cases hany : o.any (fun p => p.1 = k) = true
  · rw [objInsert, if_pos hany]
    exact objLookup_map_replace_other o k v k' h
  · rw [objInsert, if_neg hany, objLookup_append]
    cases hcase : objLookup o k' with
    | some w => rfl
    | none => simp [objLookup, Ne.symm h]

/-- Keys untouched by every update of an `Object.assign` read unchanged. -/
theorem objLookup_objAssign_of_not_mem (updates : JSObj) :
    ∀ (o : JSObj) (k : String), (∀ kv ∈ updates, kv.1 ≠ k) →
      objLookup (objAssign o updates) k = objLookup o k := by
  induction updates with
  | nil => intro o k _; rfl
  | cons kv rest ih =>
    intro o k h
    show objLookup (objAssign (objInsert o kv.1 kv.2) rest) k = objLookup o k
    rw [ih _ _ (fun kv2 hmem => h kv2 (List.mem_cons_of_mem _ hmem)),
      objLookup_objInsert_other _ _ _ _ (Ne.symm (h kv (List.mem_cons_self _ _)))]

/-- After `Object.assign(o, updates)` with duplicate-free update keys, every
updated key reads back its update value. -/
theorem objLookup_objAssign_of_lookup (updates : JSObj) :
    ∀ (o : JSObj) (k v : String), (updates.map Prod.fst).Nodup →
      objLookup updates k = some v →
      objLookup (objAssign o updates) k = some v := by
  induction updates with
  | nil => intro o k v _ hfind; simp [objLookup] at hfind
  | cons kv rest ih =>
    intro o k v hnodup hfind
    obtain ⟨k₁, v₁⟩ := kv
    rw [List.map_cons, List.nodup_cons] at hnodup
    by_cases hk : k₁ = k
    · subst hk
      rw [objLookup, if_pos rfl] at hfind
      have hv := Option.some.inj hfind
      have hmem : ∀ kv2 ∈ rest, kv2.1 ≠ k₁ := by
        intro kv2 hkv hcon
        apply hnodup.1
        rw [← hcon]
        have hm := List.mem_map_of_mem Prod.fst hkv
        exact hm
      show objLookup (objAssign (objInsert o k₁ v₁) rest) k₁ = some v
      rw [objLookup_objAssign_of_not_mem rest _ _ hmem, objLookup_objInsert_self]
      exact congrArg some hv
    · rw [objLookup, if_neg hk] at hfind
      exact ih (objInsert o k₁ v₁) k v hnodup.2 hfind

/-- Association-list reads agree across a permutation with duplicate-free
keys. -/
theorem objLookup_eq_of_perm {p₁ p₂ : JSObj} (hp : p₁.Perm p₂) :
    (p₁.map Prod.fst).Nodup → ∀ k, objLookup p₁ k = objLookup p₂ k := by
  induction hp with
  | nil => intro _ _; rfl
  | cons x h ih =>
    intro hnodup k
    rw [List.map_cons, List.nodup_cons] at hnodup
    by_cases hk : x.1 = k
    · simp [objLookup, hk]
    · simp only [objLookup, if_neg hk]
      exact ih hnodup.2 k
  | swap x y l =>
    intro hnodup k
    rw [List.map_cons, List.map_cons, List.nodup_cons] at hnodup
    have hne : y.1 ≠ x.1 := fun e => hnodup.1 (by simp [e])
    by_cases h1 : y.1 = k
    · have h2 : ¬ x.1 = k := fun e => hne (h1.trans e.symm)
      simp [objLookup, h1, h2]
    · by_cases h2 : x.1 = k <;> simp [objLookup, h1, h2]
  | trans h₁ h₂ ih₁ ih₂ =>
    intro hnodup k
    rw [ih₁ hnodup k, ih₂ (((h₁.map Prod.fst).nodup_iff).mp hnodup) k]

/-- A splice insertion grows the array by exactly one. -/
theorem spliceInsert_length (l : List String) (i : Nat) (a : String) :
    (spliceInsert l i a).length = l.length + 1 := by
  induction l generalizing i with
  | nil => cases i <;> rfl
  | cons x xs ih =>
    cases i with
    | zero => rfl
    | succ j =>
      show (x :: spliceInsert xs j a).length = (x :: xs).length + 1
      simp [ih]

/-- Every `EXTENDED_PYWAL_COLORS` entry grows the array by exactly one. -/
theorem applyExtendedColor_length (f : ChangeLuminance) (colors : List String)
    (c : IExtendedPywalColor) :
    (applyExtendedColor f colors c).length = colors.length + 1 := by
  cases c <;> simp [applyExtendedColor, spliceInsert_length]

/-- The extended palette has the base length plus one entry per spec. -/
theorem generatePywalPalette_length (f : ChangeLuminance)
    (specs : List IExtendedPywalColor) :
    ∀ p : List String, (generatePywalPalette f specs p).length = p.length + specs.length := by
  induction specs with
  | nil => intro p; rfl
  | cons s rest ih =>
    intro p
    show (generatePywalPalette f rest (applyExtendedColor f p s)).length = _
    rw [ih, applyExtendedColor_length]
    simp [Nat.add_assoc, Nat.add_comm 1]

/-- Positions strictly before the insertion point are unchanged by a
splice. -/
theorem spliceInsert_getElem_lt (l : List String) (i t : Nat) (a : String)
    (hti : t < i) (htl : t < l.length) :
    (spliceInsert l i a)[t]? = l[t]? := by
  induction l generalizing i t with
  | nil => simp at htl
  | cons x xs ih =>
    cases i with
    | zero => omega
    | succ j =>
      cases t with
      | zero =>
        show (x :: spliceInsert xs j a)[0]? = (x :: xs)[0]?
        simp
      | succ u =>
        show (x :: spliceInsert xs j a)[u + 1]? = (x :: xs)[u + 1]?
        simp only [List.getElem?_cons_succ]
        exact ih j u (by omega) (by simpa using htl)

/-- An in-range splice puts the inserted value exactly at the insertion
index. -/
theorem spliceInsert_getElem_self (l : List String) (t : Nat) (a : String)
    (h : t ≤ l.length) : (spliceInsert l t a)[t]? = some a := by
  induction l generalizing t with
  | nil =>
    cases t with
    | zero => rfl
    | succ u => simp at h
  | cons x xs ih =>
    cases t with
    | zero => rfl
    | succ u =>
      show (x :: spliceInsert xs u a)[u + 1]? = some a
      simp only [List.getElem?_cons_succ]
      exact ih u (by simpa using h)

/-- Specs inserting strictly above position `t` leave position `t`
unchanged throughout the fold. -/
theorem foldl_applyExtendedColor_getElem (f : ChangeLuminance)
    (rest : List IExtendedPywalColor) :
    ∀ (l : List String) (t : Nat), t < l.length →
      (∀ s ∈ rest, t < s.targetIndex) →
      (rest.foldl (applyExtendedColor f) l)[t]? = l[t]? := by
  induction rest with
  | nil => intro l t _ _; rfl
  | cons s rest ih =>
    intro l t htl hgt
    have hts : t < s.targetIndex := hgt s (List.mem_cons_self _ _)
    have hlen : t < (applyExtendedColor f l s).length := by
      rw [applyExtendedColor_length]; omega
    show (rest.foldl (applyExtendedColor f) (applyExtendedColor f l s))[t]? = l[t]?
    rw [ih (applyExtendedColor f l s) t hlen
      (fun s2 h2 => hgt s2 (List.mem_cons_of_mem _ h2))]
    cases s with
    | custom ti cs => exact spliceInsert_getElem_lt l ti t cs hts htl
    | derived ti ci m lo hi => exact spliceInsert_getElem_lt l ti t _ hts htl

/-- A `custom` spec whose insertion index is in range at its turn, and whose
successors all insert strictly above it, ends up holding its literal value
at its insertion index. -/
theorem generatePywalPalette_fixed (f : ChangeLuminance)
    (specs : List IExtendedPywalColor) :
    ∀ (p : List String) (i t : Nat) (s : String),
      specs[i]? = some (IExtendedPywalColor.custom t s) →
      t ≤ p.length + i →
      (∀ j spec, i < j → specs[j]? = some spec → t < spec.targetIndex) →
      (generatePywalPalette f specs p)[t]? = some s := by
  induction specs with
  | nil => intro p i t s hspec _ _; simp at hspec
  | cons s₀ rest ih =>
    intro p i t s hspec hle hmono
    cases i with
    | zero =>
      have hs₀ : s₀ = IExtendedPywalColor.custom t s := by simpa using hspec
      subst hs₀
      have hle' : t ≤ p.length := by simpa using hle
      have hlen : t < (applyExtendedColor f p (.custom t s)).length := by
        rw [applyExtendedColor_length]; omega
      have hgt : ∀ sp ∈ rest, t < sp.targetIndex := by
        intro sp hsp
        obtain ⟨j, hjlt, hj⟩ := List.getElem_of_mem hsp
        exact hmono (j + 1) sp (Nat.succ_pos j)
          (by simpa using List.getElem?_eq_getElem hjlt ▸ congrArg some hj)
      show (rest.foldl (applyExtendedColor f) (applyExtendedColor f p (.custom t s)))[t]?
        = some s
      rw [foldl_applyExtendedColor_getElem f rest _ t hlen hgt]
      exact spliceInsert_getElem_self p t s hle'
    | succ i' =>
      show (generatePywalPalette f rest (applyExtendedColor f p s₀))[t]? = some s
      apply ih (applyExtendedColor f p s₀) i' t s (by simpa using hspec) ?_ ?_
      · rw [applyExtendedColor_length]; omega
      · intro j spec hij hj
        exact hmono (j + 1) spec (by omega) (by simpa using hj)

/-- C1: the claim states that a disconnect carrying exactly the message
"Error: No such native application pywalfox" is classified as
`NativeAppErrors.ManifestNotInstalled` and that classification is passed to
the `disconnected` callback. On the code the matching `case` assigns
`ManifestNotInstalled`, but the switch has no `break`s: execution falls
through the next case and the `default`, each assignment overwriting the
last, so the callback receives `NativeAppErrors.Unknown`. This theorem
evaluates the handler at that exact input. -/
theorem C1_disconnect_fallthrough :
    onDisconnect (some NO_SUCH_APPLICATION_ERROR) =
      [Effect.clearVersionCheckTimeout,
       Effect.clearConnectedCheckTimeout,
       Effect.logError
         ("Disconnected from native messaging host: " ++ NO_SUCH_APPLICATION_ERROR),
       Effect.cbDisconnected
         { type := NativeAppErrors.Unknown, message := some NO_SUCH_APPLICATION_ERROR }]
    ∧ (classifyDisconnect (some NO_SUCH_APPLICATION_ERROR)).type
        ≠ NativeAppErrors.ManifestNotInstalled
    ∧ Effect.cbDisconnected
        { type := NativeAppErrors.ManifestNotInstalled
          message := some NO_SUCH_APPLICATION_ERROR }
      ∉ onDisconnect (some NO_SUCH_APPLICATION_ERROR) := by
  refine ⟨by decide, by decide, by decide⟩

/-- C2: every outbound request method invoked while `isConnected` is false
produces exactly one error log line and nothing else: in particular no
`port.postMessage` and no queueing of the message. -/
theorem C2_send_while_disconnected :
    ∀ (message : INativeAppRequest) (target : String) (enabled : Bool) (size : Nat),
      sendMessage false message
        = [Effect.logError "Failed to send data to native app. You are not connected"]
      ∧ (sendMessage false message).countP (fun e => isPostMessage e) = 0
      ∧ (sendMessage false message).countP (fun e => isErrorLog e) = 1
      ∧ requestVersion false
        = [Effect.logError "Failed to send data to native app. You are not connected"]
      ∧ requestPywalColors false
        = [Effect.logError "Failed to send data to native app. You are not connected"]
      ∧ requestCssEnabled false target enabled
        = [Effect.logError "Failed to send data to native app. You are not connected"]
      ∧ requestFontSizeSet false target size
        = [Effect.logError "Failed to send data to native app. You are not connected"] := by
  intro message target enabled size
  exact ⟨rfl, rfl, rfl, rfl, rfl, rfl, rfl⟩

/-- C3: a successful pywal-colors response with a modern payload (one that
has a `wallpaper` field) passes it to `pywalColorsFetchSuccess` unchanged;
a legacy payload is wrapped as `{ colors: payload, wallpaper: null }`; a
failure response surfaces the carried error; a success with a missing or
null payload only logs and never fires the success callback. -/
theorem C3_pywal_colors_response :
    ∀ (error : Option String) (pywalData : IPywalColorsResponseData)
      (colors : List String) (data : Option (Option PywalResponsePayload)),
      onPywalColorsResponse true error (some (some (PywalResponsePayload.modern pywalData)))
        = [Effect.cbPywalColorsFetchSuccess pywalData]
      ∧ onPywalColorsResponse true error (some (some (PywalResponsePayload.legacy colors)))
        = [Effect.cbPywalColorsFetchSuccess { colors := colors, wallpaper := none }]
      ∧ onPywalColorsResponse false error data = [Effect.cbPywalColorsFetchFailed error]
      ∧ onPywalColorsResponse true error (some none)
        = [Effect.logError "Pywal data was read successfully but contained null"]
      ∧ onPywalColorsResponse true error none
        = [Effect.logError
             "Recieved invalid message from native app. The \x27data\x27 field is undefined.",
           Effect.logError "Pywal data was read successfully but contained null"]
      ∧ (∀ d, Effect.cbPywalColorsFetchSuccess d
          ∉ onPywalColorsResponse true error (some none))
      ∧ (∀ d, Effect.cbPywalColorsFetchSuccess d
          ∉ onPywalColorsResponse true error none) := by
  intro error pywalData colors data
  refine ⟨rfl, rfl, rfl, rfl, rfl, ?_, ?_⟩
  · intro d hmem
    have heq : onPywalColorsResponse true error (some none)
        = [Effect.logError "Pywal data was read successfully but contained null"] := rfl
    rw [heq] at hmem
    simp at hmem
  · intro d hmem
    have heq : onPywalColorsResponse true error none
        = [Effect.logError
             "Recieved invalid message from native app. The \x27data\x27 field is undefined.",
           Effect.logError "Pywal data was read successfully but contained null"] := rfl
    rw [heq] at hmem
    simp at hmem

/-- C4 counterexample: the claim states that whenever a data payload is
present the `version` callback fires with that value. The handler keeps the
JS truthiness test `if (version)`, so the present-but-empty payload `""`
fires `updateNeeded` instead and the `version` callback never runs. -/
theorem C4_counterexample_empty_version :
    onVersionResponse (some (some ""))
      = [Effect.cbUpdateNeeded, Effect.clearVersionCheckTimeout]
    ∧ Effect.cbVersion "" ∉ onVersionResponse (some (some ""))
    ∧ Effect.cbUpdateNeeded ∈ onVersionResponse (some (some "")) := by
  refine ⟨by decide, by decide, by decide⟩

/-- C4 (amended): for a present and truthy (non-empty) data payload the
`version` callback fires with exactly that value, the version-check timer
is cleared, and `updateNeeded` never fires; when the payload is absent (or
null) `updateNeeded` fires instead of the `version` callback. -/
theorem C4_version_response (version : String) (h : version ≠ "") :
    onVersionResponse (some (some version))
      = [Effect.cbVersion version, Effect.clearVersionCheckTimeout]
    ∧ Effect.cbUpdateNeeded ∉ onVersionResponse (some (some version))
    ∧ onVersionResponse none
      = [Effect.logError
           "Recieved invalid message from native app. The \x27data\x27 field is undefined.",
         Effect.cbUpdateNeeded, Effect.clearVersionCheckTimeout]
    ∧ onVersionResponse (some none)
      = [Effect.cbUpdateNeeded, Effect.clearVersionCheckTimeout]
    ∧ (∀ v, Effect.cbVersion v ∉ onVersionResponse none) := by
  refine ⟨?_, ?_, rfl, rfl, ?_⟩
  · simp [onVersionResponse, getData, h]
  · simp [onVersionResponse, getData, h]
  · intro v hmem
    have heq : onVersionResponse none
        = [Effect.logError
             "Recieved invalid message from native app. The \x27data\x27 field is undefined.",
           Effect.cbUpdateNeeded, Effect.clearVersionCheckTimeout] := rfl
    rw [heq] at hmem
    simp at hmem

/-- C4 witness: the handler at the concrete payload "2.0". -/
theorem C4_witness :
    onVersionResponse (some (some "2.0"))
      = [Effect.cbVersion "2.0", Effect.clearVersionCheckTimeout] :=
  (C4_version_response "2.0" (by decide)).1

/-- C5: `generateDarkreaderScheme` returns exactly the dark-pair object
when the mode is Dark and exactly the light-pair object for every other
mode; the other pair of keys is absent in each case. -/
theorem C5_darkreader_shape (palette : JSObj) (mode : ThemeModes) :
    (mode = ThemeModes.Dark →
      generateDarkreaderScheme palette mode =
        { darkSchemeTextColor := objLookup palette "text"
          darkSchemeBackgroundColor := objLookup palette "background"
          lightSchemeTextColor := none
          lightSchemeBackgroundColor := none })
    ∧ (mode ≠ ThemeModes.Dark →
      generateDarkreaderScheme palette mode =
        { darkSchemeTextColor := none
          darkSchemeBackgroundColor := none
          lightSchemeTextColor := objLookup palette "text"
          lightSchemeBackgroundColor := objLookup palette "background" }) := by
  constructor
  · intro h
    subst h
    rfl
  · intro h
    simp [generateDarkreaderScheme, h]

/-- C5 witness: both shapes on a concrete palette. -/
theorem C5_witness :
    generateDarkreaderScheme [("background", "#111111"), ("text", "#eeeeee")] ThemeModes.Dark
      = { darkSchemeTextColor := some "#eeeeee"
          darkSchemeBackgroundColor := some "#111111"
          lightSchemeTextColor := none
          lightSchemeBackgroundColor := none }
    ∧ generateDarkreaderScheme [("background", "#111111"), ("text", "#eeeeee")] ThemeModes.Light
      = { darkSchemeTextColor := none
          darkSchemeBackgroundColor := none
          lightSchemeTextColor := some "#eeeeee"
          lightSchemeBackgroundColor := some "#111111" } :=
  ⟨(C5_darkreader_shape [("background", "#111111"), ("text", "#eeeeee")] ThemeModes.Dark).1 rfl,
   (C5_darkreader_shape [("background", "#111111"), ("text", "#eeeeee")] ThemeModes.Light).2
     (by decide)⟩

/-- C6: for every palette template data list, raw palette, custom-colors
object with (JS-object) duplicate-free keys, and palette template, every
role present in the custom colors reads back its custom value from the
generated palette, regardless of the derived value. -/
theorem C6_custom_colors_override (paletteTemplateData : List ITemplateItem)
    (pywalColors : List String) (customColors : JSObj) (template : String → Nat)
    (r v : String) (hnodup : (customColors.map Prod.fst).Nodup)
    (hr : objLookup customColors r = some v) :
    objLookup (generatePalette paletteTemplateData pywalColors customColors template) r
      = some v :=
  objLookup_objAssign_of_lookup customColors _ r v hnodup hr

/-- C6 witness: a custom background overrides the derived one. -/
theorem C6_witness :
    objLookup
      (generatePalette [{ target := "background", cssVariable := "--background" }]
        ["#000000"] [("background", "#123456")] (fun _ => 0)) "background"
      = some "#123456" :=
  C6_custom_colors_override
    [{ target := "background", cssVariable := "--background" }]
    ["#000000"] [("background", "#123456")] (fun _ => 0)
    "background" "#123456" (by decide) (by decide)

/-- C7: `generatePaletteHash` is invariant under permutation of the palette
object's key insertion order: palettes with the same role-to-color bindings
hash identically, because the role names are sorted before the stripped
values are concatenated. -/
theorem C7_hash_insertion_order_invariant (p₁ p₂ : JSObj) (hp : p₁.Perm p₂)
    (hnodup : (p₁.map Prod.fst).Nodup) :
    generatePaletteHash p₁ = generatePaletteHash p₂ := by
  have hkeys : List.insertionSort keyLe (p₁.map Prod.fst)
      = List.insertionSort keyLe (p₂.map Prod.fst) :=
    List.eq_of_perm_of_sorted
      ((List.perm_insertionSort keyLe _).trans
        ((hp.map Prod.fst).trans (List.perm_insertionSort keyLe _).symm))
      (List.sorted_insertionSort keyLe _)
      (List.sorted_insertionSort keyLe _)
  have hlook : objLookup p₁ = objLookup p₂ :=
    funext (objLookup_eq_of_perm hp hnodup)
  unfold generatePaletteHash
  rw [hkeys, hlook]

/-- C7 witness: the same two bindings in both insertion orders. -/
theorem C7_witness :
    generatePaletteHash [("background", "#111111"), ("text", "#eeeeee")]
      = generatePaletteHash [("text", "#eeeeee"), ("background", "#111111")] :=
  C7_hash_insertion_order_invariant
    [("background", "#111111"), ("text", "#eeeeee")]
    [("text", "#eeeeee"), ("background", "#111111")]
    (by decide) (by decide)

/-- C8: for every 18-entry raw palette, every spec list and every luminance
function, the extended palette has length 18 plus the spec count; and every
`custom` (fixed) spec whose insertion index is in range at its turn and
whose later specs all target strictly higher indices holds exactly its
literal color string at its insertion index. The source's defensive copy
`[...pywalColors]` is inherent in the value semantics of the embedding, so
the caller's array is unchanged. -/
theorem C8_extend_length_and_fixed (f : ChangeLuminance)
    (specs : List IExtendedPywalColor) (p : List String)
    (hlen : p.length = PYWAL_PALETTE_LENGTH) :
    (generatePywalPalette f specs p).length = PYWAL_PALETTE_LENGTH + specs.length
    ∧ (∀ (i t : Nat) (s : String),
        specs[i]? = some (IExtendedPywalColor.custom t s) →
        t ≤ PYWAL_PALETTE_LENGTH + i →
        (∀ j spec, i < j → specs[j]? = some spec → t < spec.targetIndex) →
        (generatePywalPalette f specs p)[t]? = some s) := by
  constructor
  · rw [generatePywalPalette_length, hlen]
  · intro i t s hspec hle hmono
    exact generatePywalPalette_fixed f specs p i t s hspec (by rw [hlen]; exact hle) hmono

/-- C8 witness: a single fixed spec inserted at index 2 of a concrete
18-entry palette. -/
theorem C8_witness :
    (generatePywalPalette (fun c _ _ _ => c) [IExtendedPywalColor.custom 2 "#ff0000"]
        ["#000000", "#000001", "#000002", "#000003", "#000004", "#000005",
         "#000006", "#000007", "#000008", "#000009", "#00000a", "#00000b",
         "#00000c", "#00000d", "#00000e", "#00000f", "#000010", "#000011"]).length
      = PYWAL_PALETTE_LENGTH + 1
    ∧ (generatePywalPalette (fun c _ _ _ => c) [IExtendedPywalColor.custom 2 "#ff0000"]
        ["#000000", "#000001", "#000002", "#000003", "#000004", "#000005",
         "#000006", "#000007", "#000008", "#000009", "#00000a", "#00000b",
         "#00000c", "#00000d", "#00000e", "#00000f", "#000010", "#000011"])[2]?
      = some "#ff0000" := by
  have h := C8_extend_length_and_fixed (fun c _ _ _ => c)
    [IExtendedPywalColor.custom 2 "#ff0000"]
    ["#000000", "#000001", "#000002", "#000003", "#000004", "#000005",
     "#000006", "#000007", "#000008", "#000009", "#00000a", "#00000b",
     "#00000c", "#00000d", "#00000e", "#00000f", "#000010", "#000011"]
    (by decide)
  refine ⟨h.1, h.2 0 2 "#ff0000" (by decide) (by decide) ?_⟩
  intro j spec hj hget
  rcases j with _ | j
  · omega
  · simp at hget

/-- C9: colorscheme generation is a pure function of the mode, raw palette,
custom colors and template: identical inputs yield an identical hash and
deep-equal palette, browser, extension, duckduckgo and darkreader outputs,
for every configuration. -/
theorem C9_colorscheme_deterministic (cfg : ColorschemeConfig)
    (mode mode' : ThemeModes) (pywalColors pywalColors' : List String)
    (customColors customColors' : JSObj) (template template' : IColorschemeTemplate)
    (hm : mode = mode') (hp : pywalColors = pywalColors')
    (hc : customColors = customColors') (ht : template = template') :
    (generateColorscheme cfg mode pywalColors customColors template).hash
      = (generateColorscheme cfg mode' pywalColors' customColors' template').hash
    ∧ (generateColorscheme cfg mode pywalColors customColors template).palette
      = (generateColorscheme cfg mode' pywalColors' customColors' template').palette
    ∧ (generateColorscheme cfg mode pywalColors customColors template).browser
      = (generateColorscheme cfg mode' pywalColors' customColors' template').browser
    ∧ (generateColorscheme cfg mode pywalColors customColors template).extensionTheme
      = (generateColorscheme cfg mode' pywalColors' customColors' template').extensionTheme
    ∧ (generateColorscheme cfg mode pywalColors customColors template).duckduckgo
      = (generateColorscheme cfg mode' pywalColors' customColors' template').duckduckgo
    ∧ (generateColorscheme cfg mode pywalColors customColors template).darkreader
      = (generateColorscheme cfg mode' pywalColors' customColors' template').darkreader := by
  subst hm
  subst hp
  subst hc
  subst ht
  exact ⟨rfl, rfl, rfl, rfl, rfl, rfl⟩

/-- C9 witness: two calls on syntactically identical concrete inputs agree
on the hash. -/
theorem C9_witness :
    (generateColorscheme
        { paletteTemplateData := [{ target := "background", cssVariable := "--background" }]
          browserTemplateData := [{ target := "toolbar", cssVariable := "--toolbar" }]
          extensionThemeSelector := ":root"
          changeLuminance := fun c _ _ _ => c }
        ThemeModes.Dark ["#000000"] []
        { palette := fun _ => 0, browser := fun _ => "background", duckduckgo := [] }).hash
      = (generateColorscheme
        { paletteTemplateData := [{ target := "background", cssVariable := "--background" }]
          browserTemplateData := [{ target := "toolbar", cssVariable := "--toolbar" }]
          extensionThemeSelector := ":root"
          changeLuminance := fun c _ _ _ => c }
        ThemeModes.Dark ["#000000"] []
        { palette := fun _ => 0, browser := fun _ => "background", duckduckgo := [] }).hash :=
  (C9_colorscheme_deterministic
    { paletteTemplateData := [{ target := "background", cssVariable := "--background" }]
      browserTemplateData := [{ target := "toolbar", cssVariable := "--toolbar" }]
      extensionThemeSelector := ":root"
      changeLuminance := fun c _ _ _ => c }
    ThemeModes.Dark ThemeModes.Dark ["#000000"] ["#000000"] [] []
    { palette := fun _ => 0, browser := fun _ => "background", duckduckgo := [] }
    { palette := fun _ => 0, browser := fun _ => "background", duckduckgo := [] }
    rfl rfl rfl rfl).1

/-- C10: `generatePaletteHash` strips the first character of every value
unconditionally (`substring(1)` via `stripHashSymbol`), whether or not it
is a hash mark; hence two palettes with the same keys in the same order
whose values agree after dropping their first character hash identically. -/
theorem C10_hash_ignores_first_value_char (p₁ p₂ : JSObj)
    (hkeys : p₁.map Prod.fst = p₂.map Prod.fst)
    (hvals : ∀ k, ((objLookup p₁ k).getD "").drop 1 = ((objLookup p₂ k).getD "").drop 1) :
    generatePaletteHash p₁ = generatePaletteHash p₂ := by
  unfold generatePaletteHash
  rw [hkeys]
  have hfun : (fun (hash : String) key =>
        hash ++ stripHashSymbol ((objLookup p₁ key).getD ""))
      = (fun (hash : String) key =>
        hash ++ stripHashSymbol ((objLookup p₂ key).getD "")) := by
    funext hash key
    simp only [stripHashSymbol]
    rw [hvals key]
  rw [hfun]

/-- C10 witness: values "#123456" and "Z123456" differ only in their first
character and collide. -/
theorem C10_witness :
    generatePaletteHash [("background", "#123456")]
      = generatePaletteHash [("background", "Z123456")] :=
  C10_hash_ignores_first_value_char
    [("background", "#123456")] [("background", "Z123456")] rfl
    (by
      intro k
      by_cases h : "background" = k
      · simp only [objLookup, if_pos h, Option.getD_some]
        decide
      · simp [objLookup, h])

end Pywalfox
